import Mathlib

/-!
Verification of the Eros-OTH-List hotel-inventory application.

The definitions below are shallow embeddings of the TypeScript/JavaScript
source: the contract-status resolver of `HotelTable.tsx`, `HotelGridView.tsx`
and `HotelCardView.tsx`, the client-side filter of `HotelDashboard.tsx`, the
staged filter state of `HotelFilters.tsx`, and the Express API of
`server/index.js` (query building, pagination, in-memory result cache,
register/login, and the admin-gated hotel writes).  JavaScript numbers are
modelled as `Int`/`Nat`, JSON-absent fields as `Option`, and fallible
request handling as `Except`/sum types.
-/

/-- `YearRecord` — one calendar year's contract entry of a hotel's
`rateAvailability` list (src/types/hotel.ts). -/
structure YearRecord where
  year : Int
  available : Bool
  contractStart : Option String := none
  contractEnd : Option String := none
deriving Repr, DecidableEq

/-- Result of the contract-status resolver: the badge text, its variant
(`"default"`, `"destructive"` or `"secondary"`, mirroring the TS string
literal types) and the tooltip. -/
structure ContractStatus where
  status : String
  variant : String
  tooltip : String
deriving Repr, DecidableEq

/-- JavaScript truthiness of an optional string: `undefined`/`null` and the
empty string are falsy. -/
def strTruthy : Option String → Bool
  | some s => !(s == "")
  | none => false

/-- `Math.abs(r.year - targetYear)` — the distance used by the
nearest-year fallback. -/
def yearDist (targetYear : Int) (r : YearRecord) : Nat :=
  (r.year - targetYear).natAbs

/-- One step of the `reduce` in the nearest-year fallback:
`Math.abs(curr.year - targetYear) < Math.abs(prev.year - targetYear) ? curr : prev`. -/
def nearestStep (targetYear : Int) (prev curr : YearRecord) : YearRecord :=
  if yearDist targetYear curr < yearDist targetYear prev then curr else prev

/-- `rateAvailability.reduce(...)` on a non-empty list: JavaScript's
`reduce` without an initial value starts from the first element. -/
def nearestRecord (targetYear : Int) (h : YearRecord) (rest : List YearRecord) : YearRecord :=
  rest.foldl (nearestStep targetYear) h

/-- Rendering of a found record shared by the three views: label, variant and
tooltip built from the record, the `fromNearest` flag and the target year.
`arrow` is the separator each view writes between `contractStart` and
`contractEnd` (`" → "` in `HotelTable.tsx`; the mojibake `" â†’ "` in
`HotelGridView.tsx` and `HotelCardView.tsx`). -/
def mkStatus (yearData : YearRecord) (fromNearest : Bool) (targetYear : Int)
    (arrow : String) : ContractStatus :=
  let yearLabel := yearData.year
  let range :=
    if strTruthy yearData.contractStart && strTruthy yearData.contractEnd then
      " (" ++ yearData.contractStart.getD "" ++ arrow ++ yearData.contractEnd.getD "" ++ ")"
    else ""
  let nearestNote :=
    if fromNearest && !(yearLabel == targetYear) then
      " (showing " ++ toString yearLabel ++ "; no data for " ++ toString targetYear ++ ")"
    else ""
  if yearData.available then
    { status := "Available (" ++ toString yearLabel ++ ")", variant := "default",
      tooltip := "Available in " ++ toString yearLabel ++ range ++ nearestNote }
  else
    { status := "Unavailable", variant := "destructive",
      tooltip := "Unavailable in " ++ toString yearLabel ++ nearestNote }

/-- The `noData` result (`{ status: "No Data (year)", variant: 'secondary', ... }`). -/
def noDataStatus (targetYear : Int) : ContractStatus :=
  { status := "No Data (" ++ toString targetYear ++ ")", variant := "secondary",
    tooltip := "No contract data for " ++ toString targetYear }

/-- `getContractStatus` of `HotelTable.tsx` (lines 42–66): exact-year lookup
via `find`, nearest-year `reduce` fallback on a non-empty list, `noData`
otherwise. -/
def tableGetContractStatus (rateAvailability : List YearRecord) (targetYear : Int) :
    ContractStatus :=
  match rateAvailability.find? (fun rate => rate.year == targetYear) with
  | some yearData => mkStatus yearData false targetYear " → "
  | none =>
    match rateAvailability with
    | [] => noDataStatus targetYear
    | h :: rest => mkStatus (nearestRecord targetYear h rest) true targetYear " → "

/-- `getContractStatus` of `HotelGridView.tsx` (lines 27–48); identical to the
table view except that the contract-range separator is the mojibake
`" â†’ "`. -/
def gridGetContractStatus (rateAvailability : List YearRecord) (targetYear : Int) :
    ContractStatus :=
  match rateAvailability.find? (fun rate => rate.year == targetYear) with
  | some yearData => mkStatus yearData false targetYear " â†’ "
  | none =>
    match rateAvailability with
    | [] => noDataStatus targetYear
    | h :: rest => mkStatus (nearestRecord targetYear h rest) true targetYear " â†’ "

/-- `getContractStatus` of `HotelCardView.tsx` (lines 27–48); byte-identical
to the grid view's version. -/
def cardGetContractStatus (rateAvailability : List YearRecord) (targetYear : Int) :
    ContractStatus :=
  match rateAvailability.find? (fun rate => rate.year == targetYear) with
  | some yearData => mkStatus yearData false targetYear " â†’ "
  | none =>
    match rateAvailability with
    | [] => noDataStatus targetYear
    | h :: rest => mkStatus (nearestRecord targetYear h rest) true targetYear " â†’ "

example : tableGetContractStatus [] 2024 = noDataStatus 2024 := rfl

example :
    (tableGetContractStatus [⟨2023, true, none, none⟩, ⟨2025, false, none, none⟩] 2024).status
      = "Available (2023)" := by decide

example :
    (tableGetContractStatus [⟨2025, false, none, none⟩, ⟨2023, true, none, none⟩] 2024).status
      = "Unavailable" := by decide

/-- `Array.prototype.find` / `List.find?` returns the first element
satisfying the predicate: the found element satisfies it, occurs at some
index, and every earlier element fails it. -/
theorem find?_first {α} (p : α → Bool) :
    ∀ (l : List α) (r : α), l.find? p = some r →
      p r = true ∧ ∃ i : Nat, l[i]? = some r ∧ ∀ (j : Nat) (x : α), j < i → l[j]? = some x → p x = false := by
  intro l
  induction l with
  | nil => intro r h; simp [List.find?] at h
  | cons a l ih =>
    intro r h
    by_cases ha : p a
    · rw [List.find?_cons_of_pos _ ha] at h
      cases h
      refine ⟨ha, 0, by simp, ?_⟩
      intro j x hj
      omega
    · rw [List.find?_cons_of_neg _ (by simpa using ha)] at h
      obtain ⟨hpr, i, hi, hbef⟩ := ih r h
      refine ⟨hpr, i + 1, by simpa using hi, ?_⟩
      intro j x hj hx
      cases j with
      | zero =>
        have hax : a = x := by simpa using hx
        subst hax
        simpa using ha
      | succ j' =>
        exact hbef j' x (by omega) (by simpa using hx)

/-- The `reduce`-based nearest-year fallback selects the first record of the
list attaining the minimal absolute year distance: it occurs at some index
`i`, no record has a strictly smaller distance, and every record before
index `i` has a strictly larger distance. -/
theorem nearestRecord_first_min (t : Int) (rest : List YearRecord) (h : YearRecord) :
    ∃ i : Nat, (h :: rest)[i]? = some (nearestRecord t h rest) ∧
      (∀ x ∈ h :: rest, yearDist t (nearestRecord t h rest) ≤ yearDist t x) ∧
      (∀ (j : Nat) (x : YearRecord), j < i → (h :: rest)[j]? = some x →
        yearDist t (nearestRecord t h rest) < yearDist t x) := by
  induction rest generalizing h with
  | nil =>
    refine ⟨0, by simp [nearestRecord], ?_, ?_⟩
    · intro x hx
      rcases List.mem_singleton.mp hx with rfl
      exact Nat.le_refl _
    · intro j x hj _
      omega
  | cons c rs ih =>
    have hfold : nearestRecord t h (c :: rs) = nearestRecord t (nearestStep t h c) rs := rfl
    by_cases hc : yearDist t c < yearDist t h
    · have hstep : nearestStep t h c = c := by simp [nearestStep, hc]
      obtain ⟨i, hi, hmin, hbef⟩ := ih c
      refine ⟨i + 1, ?_, ?_, ?_⟩
      · rw [hfold, hstep]
        simpa using hi
      · intro x hx
        rw [hfold, hstep]
        rcases List.mem_cons.mp hx with rfl | hx'
        · exact Nat.le_trans (hmin c (List.mem_cons_self _ _)) (Nat.le_of_lt hc)
        · exact hmin x hx'
      · intro j x hj hx
        rw [hfold, hstep]
        cases j with
        | zero =>
          have hxh : h = x := by simpa using hx
          subst hxh
          exact Nat.lt_of_le_of_lt (hmin c (List.mem_cons_self _ _)) hc
        | succ j' =>
          exact hbef j' x (by omega) (by simpa using hx)
    · have hstep : nearestStep t h c = h := by simp [nearestStep, hc]
      have hle : yearDist t h ≤ yearDist t c := Nat.le_of_not_lt hc
      obtain ⟨i, hi, hmin, hbef⟩ := ih h
      have hmin' : ∀ x ∈ h :: rs, yearDist t (nearestRecord t h rs) ≤ yearDist t x := hmin
      cases i with
      | zero =>
        have hres : h = nearestRecord t h rs := by simpa using hi
        refine ⟨0, ?_, ?_, ?_⟩
        · rw [hfold, hstep, ← hres]
          simp [← hres]
        · intro x hx
          rw [hfold, hstep, ← hres]
          rcases List.mem_cons.mp hx with rfl | hx'
          · exact Nat.le_refl _
          rcases List.mem_cons.mp hx' with rfl | hx''
          · exact hle
          · have := hmin' x (List.mem_cons_of_mem _ hx'')
            rw [← hres] at this
            exact this
        · intro j x hj _
          omega
      | succ i' =>
        refine ⟨i' + 2, ?_, ?_, ?_⟩
        · rw [hfold, hstep]
          simpa using hi
        · intro x hx
          rw [hfold, hstep]
          rcases List.mem_cons.mp hx with rfl | hx'
          · exact hmin' x (List.mem_cons_self _ _)
          rcases List.mem_cons.mp hx' with rfl | hx''
          · have h0 : yearDist t (nearestRecord t h rs) < yearDist t h :=
              hbef 0 h (by omega) (by simp)
            exact Nat.le_of_lt (Nat.lt_of_lt_of_le h0 hle)
          · exact hmin' x (List.mem_cons_of_mem _ hx'')
        · intro j x hj hx
          rw [hfold, hstep]
          match j, hj with
          | 0, _ =>
            have hxh : h = x := by simpa using hx
            subst hxh
            exact hbef 0 h (by omega) (by simp)
          | 1, _ =>
            have hxc : c = x := by simpa using hx
            subst hxc
            exact Nat.lt_of_lt_of_le (hbef 0 h (by omega) (by simp)) hle
          | (j'' + 2), hj =>
            exact hbef (j'' + 1) x (by omega) (by simpa using hx)

/-- C1: for every list of year records and target year, `getContractStatus`
(HotelTable.tsx) resolves: an empty list to the `noData` status whose label
includes the target year; otherwise the first record whose year equals the
target year when one exists; otherwise the record whose year has the
smallest absolute distance to the target year, ties broken by the
first-encountered record in list order; and a selected record renders as
`available` (variant `"default"`, label `Available (year)`) exactly when
its `available` flag is true. -/
theorem C1_contract_status_resolution (l : List YearRecord) (t : Int) :
    (l = [] → tableGetContractStatus l t = noDataStatus t ∧
       (noDataStatus t).status = "No Data (" ++ toString t ++ ")") ∧
    (∀ r, l.find? (fun x => x.year == t) = some r →
       r.year = t ∧
       (∃ i : Nat, l[i]? = some r ∧
          ∀ (j : Nat) (x : YearRecord), j < i → l[j]? = some x → x.year ≠ t) ∧
       tableGetContractStatus l t = mkStatus r false t " → ") ∧
    (∀ h rest, l = h :: rest → l.find? (fun x => x.year == t) = none →
       tableGetContractStatus l t = mkStatus (nearestRecord t h rest) true t " → " ∧
       ∃ i : Nat, l[i]? = some (nearestRecord t h rest) ∧
         (∀ x ∈ l, yearDist t (nearestRecord t h rest) ≤ yearDist t x) ∧
         (∀ (j : Nat) (x : YearRecord), j < i → l[j]? = some x →
            yearDist t (nearestRecord t h rest) < yearDist t x)) ∧
    (∀ r fromNearest arrow,
       ((mkStatus r fromNearest t arrow).variant = "default" ↔ r.available = true) ∧
       (r.available = true →
          (mkStatus r fromNearest t arrow).status = "Available (" ++ toString r.year ++ ")") ∧
       (r.available = false → (mkStatus r fromNearest t arrow).status = "Unavailable")) := by
  refine ⟨?_, ?_, ?_, ?_⟩
  · rintro rfl
    exact ⟨rfl, rfl⟩
  · intro r hr
    obtain ⟨hpr, i, hi, hbef⟩ := find?_first (fun x => x.year == t) l r hr
    refine ⟨by simpa using hpr, ⟨i, hi, ?_⟩, by simp [tableGetContractStatus, hr]⟩
    intro j x hj hx
    simpa using hbef j x hj hx
  · rintro h rest rfl hnone
    refine ⟨by simp [tableGetContractStatus, hnone], ?_⟩
    exact nearestRecord_first_min t rest h
  · intro r fromNearest arrow
    refine ⟨?_, ?_, ?_⟩
    · cases hav : r.available <;> simp [mkStatus, hav]
    · intro hav; simp [mkStatus, hav]
    · intro hav; simp [mkStatus, hav]

/-- Concrete run of `C1_contract_status_resolution`: for records
`[2023 available, 2025 unavailable]` and target 2024 (a distance tie), the
resolver selects the first-encountered record 2023, and for the empty list
it yields the `noData` status for 2024. -/
theorem C1_contract_status_resolution_witness :
    tableGetContractStatus [⟨2023, true, none, none⟩, ⟨2025, false, none, none⟩] 2024
        = mkStatus ⟨2023, true, none, none⟩ true 2024 " → " ∧
      tableGetContractStatus ([] : List YearRecord) 2024 = noDataStatus 2024 := by
  constructor
  · exact ((C1_contract_status_resolution
      [⟨2023, true, none, none⟩, ⟨2025, false, none, none⟩] 2024).2.2.1
      ⟨2023, true, none, none⟩ [⟨2025, false, none, none⟩] rfl (by decide)).1
  · exact ((C1_contract_status_resolution ([] : List YearRecord) 2024).1 rfl).1

/-- The badge label of `mkStatus` does not depend on the contract-range
separator string. -/
theorem mkStatus_status_indep (r : YearRecord) (fn : Bool) (t : Int) (a b : String) :
    (mkStatus r fn t a).status = (mkStatus r fn t b).status := by
  cases hav : r.available <;> simp [mkStatus, hav]

/-- The badge variant of `mkStatus` does not depend on the contract-range
separator string. -/
theorem mkStatus_variant_indep (r : YearRecord) (fn : Bool) (t : Int) (a b : String) :
    (mkStatus r fn t a).variant = (mkStatus r fn t b).variant := by
  cases hav : r.available <;> simp [mkStatus, hav]

/-- When the record does not carry both contract dates (so the range segment
is empty), `mkStatus` is independent of the separator string entirely. -/
theorem mkStatus_indep_of_no_range (r : YearRecord) (fn : Bool) (t : Int) (a b : String)
    (h : (strTruthy r.contractStart && strTruthy r.contractEnd) = false) :
    mkStatus r fn t a = mkStatus r fn t b := by
  cases hav : r.available <;> simp [mkStatus, hav, h]

/-- The nearest-fallback record is a member of the availability list. -/
theorem nearestRecord_mem (t : Int) (h : YearRecord) (rest : List YearRecord) :
    nearestRecord t h rest ∈ h :: rest := by
  obtain ⟨i, hi, -, -⟩ := nearestRecord_first_min t rest h
  exact List.getElem?_mem hi

/-- C5 counterexample: on a hotel whose 2024 record carries a contract date
range, the table view's resolver and the grid view's resolver return
different values (their tooltips use different arrow glyphs), so the three
`getContractStatus` functions are not extensionally equal. -/
theorem C5_counterexample :
    tableGetContractStatus [⟨2024, true, some "2024-01-01", some "2024-12-31"⟩] 2024
      ≠ gridGetContractStatus [⟨2024, true, some "2024-01-01", some "2024-12-31"⟩] 2024 := by
  decide

/-- C5 (amended): the three rendering surfaces always agree on the badge
label and variant for the same hotel/year; the grid and card resolvers are
extensionally equal; and the table resolver agrees with them entirely
whenever the selected record does not carry both contract dates (the only
divergence being the arrow glyph inside the tooltip's date range). -/
theorem C5_views_agreement (l : List YearRecord) (t : Int) :
    (tableGetContractStatus l t).status = (gridGetContractStatus l t).status ∧
    (tableGetContractStatus l t).variant = (gridGetContractStatus l t).variant ∧
    gridGetContractStatus l t = cardGetContractStatus l t ∧
    ((∀ r ∈ l, (strTruthy r.contractStart && strTruthy r.contractEnd) = false) →
       tableGetContractStatus l t = gridGetContractStatus l t) := by
  have hgc : gridGetContractStatus l t = cardGetContractStatus l t := rfl
  cases hf : l.find? (fun rate => rate.year == t) with
  | some r =>
    refine ⟨?_, ?_, hgc, ?_⟩
    · simp only [tableGetContractStatus, gridGetContractStatus, hf]
      exact mkStatus_status_indep ..
    · simp only [tableGetContractStatus, gridGetContractStatus, hf]
      exact mkStatus_variant_indep ..
    · intro hnr
      simp only [tableGetContractStatus, gridGetContractStatus, hf]
      exact mkStatus_indep_of_no_range _ _ _ _ _ (hnr r (List.mem_of_find?_eq_some hf))
  | none =>
    cases l with
    | nil => exact ⟨rfl, rfl, hgc, fun _ => rfl⟩
    | cons h rest =>
      refine ⟨?_, ?_, hgc, ?_⟩
      · simp only [tableGetContractStatus, gridGetContractStatus, hf]
        exact mkStatus_status_indep ..
      · simp only [tableGetContractStatus, gridGetContractStatus, hf]
        exact mkStatus_variant_indep ..
      · intro hnr
        simp only [tableGetContractStatus, gridGetContractStatus, hf]
        exact mkStatus_indep_of_no_range _ _ _ _ _
          (hnr (nearestRecord t h rest) (nearestRecord_mem t h rest))

/-- Concrete run of `C5_views_agreement`: a record without contract dates
renders identically in all three views. -/
theorem C5_views_agreement_witness :
    tableGetContractStatus [⟨2023, true, none, none⟩] 2024
      = gridGetContractStatus [⟨2023, true, none, none⟩] 2024 := by
  exact (C5_views_agreement [⟨2023, true, none, none⟩] 2024).2.2.2 (by decide)

/-- One persisted hotel row (table `hotels`): id, name, country, city,
nullable stars, the `rate_availability` jsonb list, and timestamps
(modelled as naturals, milliseconds). -/
structure HotelRow where
  id : String
  name : String
  country : String
  city : String
  stars : Option Int
  rateAvailability : List YearRecord
  createdAt : Nat
  updatedAt : Nat
deriving Repr, DecidableEq

/-- `String.prototype.toLowerCase`, modelled character-wise. -/
def jsToLower (s : String) : String := String.mk (s.toList.map Char.toLower)

/-- `String.prototype.includes`: substring containment. -/
def jsIncludes (hay pat : String) : Bool :=
  (List.range (hay.toList.length + 1)).any
    (fun i => ((hay.toList.drop i).take pat.toList.length) == pat.toList)

/-- SQL `field ILIKE '%search%'`: case-insensitive substring match. -/
def likeContains (hay pat : String) : Bool := jsIncludes (jsToLower hay) (jsToLower pat)

/-- The digits part of JavaScript `parseInt`: leading decimal digits, `none`
when there is none (the `NaN` outcome). -/
def parseDigits (cs : List Char) : Option Nat :=
  let ds := cs.takeWhile (fun c => c.isDigit)
  if ds.isEmpty then none
  else some (ds.foldl (fun a c => a * 10 + (c.toNat - '0'.toNat)) 0)

/-- JavaScript `parseInt(s)` (radix 10): skip leading whitespace, optional
sign, then leading digits; `none` models the `NaN` result. -/
def parseIntJS (s : String) : Option Int :=
  match s.toList.dropWhile (fun c => c.isWhitespace) with
  | '-' :: rest => (parseDigits rest).map (fun n => -(n : Int))
  | '+' :: rest => (parseDigits rest).map (fun n => (n : Int))
  | rest => (parseDigits rest).map (fun n => (n : Int))

/-- The query string of `GET /api/hotels`: each parameter is absent or a
string; defaults are applied by the handler's destructuring. -/
structure QueryParams where
  page : Option String := none
  limit : Option String := none
  search : Option String := none
  country : Option String := none
  city : Option String := none
  year : Option String := none
  contractStatus : Option String := none
deriving Repr, DecidableEq

/-- `parseInt(page)` with the destructuring default `page = 1`. `none`
models `NaN`. -/
def effPageInt (p : QueryParams) : Option Int :=
  match p.page with
  | none => some 1
  | some s => parseIntJS s

/-- `parseInt(limit)` with the destructuring default `limit = 50`. `none`
models `NaN`. -/
def effLimitInt (p : QueryParams) : Option Int :=
  match p.limit with
  | none => some 50
  | some s => parseIntJS s

/-- `offset = (parseInt(page) - 1) * parseInt(limit)` — note: the raw
requested limit, not the clamped `limitNum`. `none` models `NaN`. -/
def offsetOf (p : QueryParams) : Option Int :=
  match effPageInt p, effLimitInt p with
  | some pg, some lm => some ((pg - 1) * lm)
  | _, _ => none

/-- `limitNum = Math.min(parseInt(limit), 100)`; `Math.min(NaN, 100)` is
`NaN` (`none`). -/
def limitNumOf (p : QueryParams) : Option Int :=
  (effLimitInt p).map (fun lm => min lm 100)

/-- The `WHERE` clause of the hotels query as a row predicate: `ILIKE`
search over name/city/country, exact country and city, and — when
`contractStatus` is `available`/`unavailable` — the jsonb containment
`rate_availability @> '[{"year": Y, "available": b}]'`, an exact-year
membership test.  Returns `none` when `parseInt(year)` is `NaN` and a
containment condition is built (the interpolated `NaN` makes the jsonb
literal invalid and the query fail). -/
def serverWhere (currentYear : Int) (p : QueryParams) : Option (HotelRow → Bool) :=
  let search := p.search.getD ""
  let country := p.country.getD ""
  let city := p.city.getD ""
  let base : HotelRow → Bool := fun row =>
    (search == "" ||
      (likeContains row.name search || likeContains row.city search ||
        likeContains row.country search)) &&
    (country == "" || row.country == country) &&
    (city == "" || row.city == city)
  let contractStatus := p.contractStatus.getD "all"
  if contractStatus == "all" then some base
  else
    let yearNum : Option Int :=
      match p.year with
      | none => some currentYear
      | some s => parseIntJS s
    if contractStatus == "available" then
      yearNum.map (fun y => fun row =>
        base row && row.rateAvailability.any (fun r => r.year == y && r.available == true))
    else if contractStatus == "unavailable" then
      yearNum.map (fun y => fun row =>
        base row && row.rateAvailability.any (fun r => r.year == y && r.available == false))
    else some base

/-- Insertion step for `ORDER BY created_at DESC`. -/
def insertByCreated (r : HotelRow) : List HotelRow → List HotelRow
  | [] => [r]
  | x :: xs => if decide (r.createdAt ≥ x.createdAt) then r :: x :: xs else x :: insertByCreated r xs

/-- `ORDER BY created_at DESC` (ties in arbitrary order), modelled as an
insertion sort. -/
def sortByCreatedDesc : List HotelRow → List HotelRow
  | [] => []
  | r :: rs => insertByCreated r (sortByCreatedDesc rs)

/-- The `pagination` object of the response. -/
structure Pagination where
  page : Int
  limit : Int
  total : Int
  totalPages : Int
deriving Repr, DecidableEq

/-- The `GET /api/hotels` JSON payload. -/
structure HotelsResult where
  hotels : List HotelRow
  pagination : Pagination
deriving Repr, DecidableEq

/-- The query path of `GET /api/hotels` (server/index.js lines 178–272,
cache aside): build the `WHERE` predicate, count matching rows, fetch the
page with `LIMIT limitNum OFFSET offset`.  `Except.error` models the SQL
error turned into a 500 response: an invalid jsonb literal (NaN year), a
`NaN` limit/offset parameter, or a negative `LIMIT`/`OFFSET`.
`totalPages = Math.ceil(total / limitNum)`, written with natural ceiling
division for a positive limit (the float `Infinity`/`NaN` outcomes of a
non-positive `limitNum` are outside the claims and mapped to 0). -/
def runHotelsQuery (store : List HotelRow) (currentYear : Int) (p : QueryParams) :
    Except String HotelsResult :=
  match serverWhere currentYear p with
  | none => .error "invalid input syntax for type json"
  | some pred =>
    let filtered := (sortByCreatedDesc store).filter pred
    let total : Int := filtered.length
    match effPageInt p, offsetOf p, limitNumOf p with
    | some pg, some off, some lim =>
      if off < 0 || lim < 0 then .error "LIMIT and OFFSET must not be negative"
      else .ok {
        hotels := (filtered.drop off.toNat).take lim.toNat,
        pagination := {
          page := pg, limit := lim, total := total,
          totalPages := if 0 < lim then (total + lim - 1) / lim else 0 } }
    | _, _, _ => .error "invalid input syntax for type bigint"

/-- `CACHE_TTL = 5 * 60 * 1000` (5 minutes, in milliseconds). -/
def CACHE_TTL : Nat := 5 * 60 * 1000

/-- One cache entry: `{ data, timestamp }`. -/
structure CacheEntry where
  data : HotelsResult
  timestamp : Nat
deriving Repr, DecidableEq

/-- `isCacheValid(entry)`: the entry exists and
`Date.now() - entry.timestamp < CACHE_TTL`. -/
def isCacheValid (entry : Option CacheEntry) (now : Nat) : Bool :=
  match entry with
  | some e => now - e.timestamp < CACHE_TTL
  | none => false

/-- The in-memory cache, a map from the serialized request to a timestamped
entry.  `getCacheKey(params)` is the injective serialization
`hotels:JSON.stringify(params)`; the association list is keyed by the
parameter record itself, which is equivalent up to that injection. -/
def HotelsCache : Type := List (QueryParams × CacheEntry)

/-- `cache.get(key)`. -/
def cacheGet (c : HotelsCache) (k : QueryParams) : Option CacheEntry :=
  ((c : List (QueryParams × CacheEntry)).find? (fun e => e.1 == k)).map (fun e => e.2)

/-- `cache.set(key, value)` — overwrite semantics of `Map.set`. -/
def cacheSet (c : HotelsCache) (k : QueryParams) (v : CacheEntry) : HotelsCache :=
  (k, v) :: (c : List (QueryParams × CacheEntry)).filter (fun e => !(e.1 == k))

/-- The server's mutable state: the `hotels` table and the hotels cache. -/
structure ServerState where
  store : List HotelRow
  cache : HotelsCache

/-- `GET /api/hotels` with the cache (server/index.js lines 190–267): a
valid cache entry is returned as-is; otherwise the query runs and, on
success, the result is stored with the current timestamp. -/
def getHotelsEndpoint (st : ServerState) (currentYear : Int) (p : QueryParams) (now : Nat) :
    Except String HotelsResult × ServerState :=
  let fresh : Except String HotelsResult × ServerState :=
    match runHotelsQuery st.store currentYear p with
    | .error e => (.error e, st)
    | .ok r => (.ok r, { st with cache := cacheSet st.cache p ⟨r, now⟩ })
  match cacheGet st.cache p with
  | some entry =>
    if now - entry.timestamp < CACHE_TTL then (.ok entry.data, st) else fresh
  | none => fresh

/-- The session token payload `{ sub, email, role }` signed by
`signToken` (server/helpers.js) and recovered by `jwt.verify`. -/
structure Session where
  sub : String
  email : String
  role : String
deriving Repr, DecidableEq

/-- The token material a request presents (cookie or `Bearer` header):
`valid payload` is a token `jwt.verify` accepts, recovering `payload`;
`invalid` is a present token on which `jwt.verify` throws. -/
inductive AuthToken where
  | valid (payload : Session)
  | invalid
deriving Repr, DecidableEq

/-- `authRequired` (server/helpers.js, appended to HotelCardView.tsx):
no token → 401 `Unauthorized`; `jwt.verify` throws → 401 `Invalid token`;
otherwise `req.user` is set to the verified payload and the chain
continues. The `Except.error` string is the 401 body's `error` field. -/
def authRequired : Option AuthToken → Except String Session
  | none => .error "Unauthorized"
  | some .invalid => .error "Invalid token"
  | some (.valid payload) => .ok payload

/-- Outcome of the write routes' middleware chain
`authRequired, requireRole('admin')`. -/
inductive AuthOutcome where
  | unauthorized
  | forbidden
  | proceed
deriving Repr, DecidableEq

/-- `requireRole(role)` (server/helpers.js): missing `req.user` → 401;
`req.user.role !== role` → 403 `Forbidden`; otherwise `next()`. -/
def requireRole (role : String) : Option Session → AuthOutcome
  | none => .unauthorized
  | some u => if !(u.role == role) then .forbidden else .proceed

/-- The middleware chain `authRequired, requireRole('admin')` on the hotel
write routes: `authRequired` answers 401 itself on a missing or invalid
token, otherwise `requireRole('admin')` runs with `req.user` set to the
verified payload. -/
def authGate (token : Option AuthToken) : AuthOutcome :=
  match authRequired token with
  | .error _ => .unauthorized
  | .ok user => requireRole "admin" (some user)

/-- Request body of `POST /api/hotels` and `PUT /api/hotels/:id`
(destructured fields; absent fields are `none`). -/
structure HotelBody where
  name : Option String := none
  country : Option String := none
  city : Option String := none
  stars : Option Int := none
  rateAvailability : Option (List YearRecord) := none
deriving Repr, DecidableEq

/-- Responses of the hotel write routes. -/
inductive WriteResult where
  | unauthorized
  | forbidden
  | badRequest
  | notFound
  | created (h : HotelRow)
  | updated (h : HotelRow)
  | deleted
deriving Repr, DecidableEq

/-- Route handler of `POST /api/hotels` (after the middleware): 400 when
`name`/`country`/`city` are falsy or `rateAvailability` is not an array;
otherwise insert the row (timestamps default to `now()`) and clear the
whole cache. -/
def postHotelsHandler (st : ServerState) (body : HotelBody) (newId : String) (now : Nat) :
    WriteResult × ServerState :=
  if !(strTruthy body.name) || !(strTruthy body.country) || !(strTruthy body.city) ||
      body.rateAvailability.isNone then
    (.badRequest, st)
  else
    let row : HotelRow :=
      { id := newId, name := body.name.getD "", country := body.country.getD "",
        city := body.city.getD "", stars := body.stars,
        rateAvailability := body.rateAvailability.getD [],
        createdAt := now, updatedAt := now }
    (.created row, { store := st.store ++ [row], cache := [] })

/-- `POST /api/hotels` with its middleware chain. -/
def postHotelsEndpoint (token : Option AuthToken) (st : ServerState) (body : HotelBody)
    (newId : String) (now : Nat) : WriteResult × ServerState :=
  match authGate token with
  | .unauthorized => (.unauthorized, st)
  | .forbidden => (.forbidden, st)
  | .proceed => postHotelsHandler st body newId now

/-- The SQL `UPDATE` of `PUT /api/hotels/:id` applied to one row:
`name`/`country`/`city`/`rate_availability` go through
`coalesce($n, current)` with `field ?? null`, so an omitted field keeps the
stored value; `stars = $5` is NOT coalesced, so `stars` is always
overwritten with `stars ?? null`; `updated_at = now()`; `id` and
`created_at` are not in the SET list. -/
def applyHotelUpdate (row : HotelRow) (body : HotelBody) (now : Nat) : HotelRow :=
  { id := row.id
    name := body.name.getD row.name
    country := body.country.getD row.country
    city := body.city.getD row.city
    stars := body.stars
    rateAvailability := body.rateAvailability.getD row.rateAvailability
    createdAt := row.createdAt
    updatedAt := now }

/-- Route handler of `PUT /api/hotels/:id`: 404 when no row has the id;
otherwise update the row, clear the whole cache, and return the updated
row (`returning *`). -/
def putHotelsHandler (st : ServerState) (id : String) (body : HotelBody) (now : Nat) :
    WriteResult × ServerState :=
  match st.store.find? (fun r => r.id == id) with
  | none => (.notFound, st)
  | some row =>
    (.updated (applyHotelUpdate row body now),
     { store := st.store.map (fun r => if r.id == id then applyHotelUpdate r body now else r),
       cache := [] })

/-- `PUT /api/hotels/:id` with its middleware chain. -/
def putHotelsEndpoint (token : Option AuthToken) (st : ServerState) (id : String)
    (body : HotelBody) (now : Nat) : WriteResult × ServerState :=
  match authGate token with
  | .unauthorized => (.unauthorized, st)
  | .forbidden => (.forbidden, st)
  | .proceed => putHotelsHandler st id body now

/-- Route handler of `DELETE /api/hotels/:id`: 404 when no row has the id
(`rowCount === 0`); otherwise delete it and clear the whole cache. -/
def deleteHotelsHandler (st : ServerState) (id : String) : WriteResult × ServerState :=
  if st.store.any (fun r => r.id == id) then
    (.deleted, { store := st.store.filter (fun r => !(r.id == id)), cache := [] })
  else (.notFound, st)

/-- `DELETE /api/hotels/:id` with its middleware chain. -/
def deleteHotelsEndpoint (token : Option AuthToken) (st : ServerState) (id : String) :
    WriteResult × ServerState :=
  match authGate token with
  | .unauthorized => (.unauthorized, st)
  | .forbidden => (.forbidden, st)
  | .proceed => deleteHotelsHandler st id

/-- One persisted user row (table `users`). -/
structure UserRow where
  id : String
  email : String
  passwordHash : String
  role : String
deriving Repr, DecidableEq

/-- Request body of `POST /api/auth/register`. -/
structure RegisterBody where
  email : Option String := none
  password : Option String := none
  role : Option String := none
deriving Repr, DecidableEq

/-- Responses of `POST /api/auth/register`. -/
inductive RegisterOutcome where
  | badRequest
  | conflict
  | createdUser (u : UserRow)
deriving Repr, DecidableEq

/-- `POST /api/auth/register` (server/index.js lines 126–144): 400 on falsy
email/password; insert `(id, email.toLowerCase(), hash, role === 'admin' ?
'admin' : 'user')`; the unique constraint on `email` yields 409. The route
has no auth middleware: any caller may register. -/
def registerEndpoint (users : List UserRow) (body : RegisterBody) (newId hash : String) :
    RegisterOutcome :=
  if !(strTruthy body.email) || !(strTruthy body.password) then .badRequest
  else
    let em := jsToLower (body.email.getD "")
    if users.any (fun u => u.email == em) then .conflict
    else .createdUser { id := newId, email := em, passwordHash := hash,
                        role := if body.role == some "admin" then "admin" else "user" }

/-- The user lookup of `POST /api/auth/login`:
`select * from users where email = $1` with `$1 = email.toLowerCase()`
(first row). -/
def loginLookup (users : List UserRow) (email : String) : Option UserRow :=
  users.find? (fun u => u.email == jsToLower email)

/-- The `HotelFilters` client type (src/types/hotel.ts): `year` is
`number | null`. -/
structure HotelFilters where
  search : String
  country : String
  city : String
  year : Option Int
  contractStatus : String
deriving Repr, DecidableEq

/-- JavaScript `filters.year || currentYear`: `null` and `0` are falsy. -/
def yearOrCurrent (y : Option Int) (currentYear : Int) : Int :=
  match y with
  | some v => if v == 0 then currentYear else v
  | none => currentYear

/-- The `filteredHotels` predicate of `HotelDashboard.tsx` (lines 52–79):
substring search over name/city/country, exact country/city, and — when
`contractStatus` is not `all` — a contract test that deliberately reuses
the display-layer nearest-year fallback ("Use nearest-year fallback like
views to avoid mismatch") before comparing the `available` flag. -/
def dashboardMatches (filters : HotelFilters) (currentYear : Int) (hotel : HotelRow) : Bool :=
  let matchesSearch :=
    likeContains hotel.name filters.search || likeContains hotel.city filters.search ||
      likeContains hotel.country filters.search
  let matchesCountry := filters.country == "" || hotel.country == filters.country
  let matchesCity := filters.city == "" || hotel.city == filters.city
  let matchesContract :=
    if filters.contractStatus == "all" then true
    else
      let targetYear := yearOrCurrent filters.year currentYear
      let yearData :=
        match hotel.rateAvailability.find? (fun rate => rate.year == targetYear) with
        | some d => some d
        | none =>
          match hotel.rateAvailability with
          | [] => none
          | h :: rest => some (nearestRecord targetYear h rest)
      match yearData with
      | some d => if filters.contractStatus == "available" then d.available else !d.available
      | none => false
  matchesSearch && matchesCountry && matchesCity && matchesContract

/-- `filteredHotels` of `HotelDashboard.tsx`. -/
def dashboardFilteredHotels (hotels : List HotelRow) (filters : HotelFilters)
    (currentYear : Int) : List HotelRow :=
  hotels.filter (dashboardMatches filters currentYear)

/-- The default / "Clear" filter set: empty search/country/city, current
year, status `all`. -/
def defaultFilters (currentYear : Int) : HotelFilters :=
  { search := "", country := "", city := "", year := some currentYear, contractStatus := "all" }

/-- A single field edit in the filter panel (`handleDraftChange`). -/
inductive FilterEdit where
  | setSearch (v : String)
  | setCountry (v : String)
  | setCity (v : String)
  | setYear (v : Option Int)
  | setContractStatus (v : String)
deriving Repr, DecidableEq

/-- `setDraft(prev => ({ ...prev, [key]: value }))`. -/
def applyDraftChange (d : HotelFilters) : FilterEdit → HotelFilters
  | .setSearch v => { d with search := v }
  | .setCountry v => { d with country := v }
  | .setCity v => { d with city := v }
  | .setYear v => { d with year := v }
  | .setContractStatus v => { d with contractStatus := v }

/-- The filter panel's state: the local `draft` and the parent's committed
`filters` (the set driving fetches). -/
structure FilterPanelState where
  draft : HotelFilters
  committed : HotelFilters
deriving Repr, DecidableEq

/-- Events of `HotelFilters.tsx`: a field edit (`onChange` →
`handleDraftChange`), the Apply button (`handleApplyFilters`), the Enter
key inside the search input, the Clear button (`handleClearFilters`), and
the `useEffect` that re-syncs `draft` when the parent's `filters` prop
changes. -/
inductive FilterEvent where
  | edit (e : FilterEdit)
  | applyFilters
  | enterInSearch
  | clearFilters
  | externalSync (f : HotelFilters)
deriving Repr, DecidableEq

/-- The `useEffect` draft re-sync: each field falls back through `??`
(only `year ?? currentYear` can differ, the other fields being
non-nullable strings). -/
def syncDraft (f : HotelFilters) (currentYear : Int) : HotelFilters :=
  { search := f.search, country := f.country, city := f.city,
    year := some (f.year.getD currentYear), contractStatus := f.contractStatus }

/-- One transition of the filter panel; the boolean records whether the
event invoked `onFiltersChange` (the commit that drives a re-fetch). -/
def filterStep (currentYear : Int) (s : FilterPanelState) : FilterEvent → FilterPanelState × Bool
  | .edit e => ({ s with draft := applyDraftChange s.draft e }, false)
  | .applyFilters => ({ s with committed := s.draft }, true)
  | .enterInSearch => ({ s with committed := s.draft }, true)
  | .clearFilters =>
    let cleared := defaultFilters currentYear
    ({ draft := cleared, committed := cleared }, true)
  | .externalSync f => ({ draft := syncDraft f currentYear, committed := f }, false)

/-- Inserting into the created-at ordering is a permutation. -/
theorem insertByCreated_perm (r : HotelRow) (l : List HotelRow) :
    (insertByCreated r l).Perm (r :: l) := by
  induction l with
  | nil => exact List.Perm.refl _
  | cons x xs ih =>
    by_cases h : r.createdAt ≥ x.createdAt
    · simp [insertByCreated, h]
    · simp only [insertByCreated, h, decide_False]
      exact (List.Perm.cons x ih).trans (List.Perm.swap r x xs)

/-- `ORDER BY` is a permutation of the table rows. -/
theorem sortByCreatedDesc_perm (l : List HotelRow) : (sortByCreatedDesc l).Perm l := by
  induction l with
  | nil => exact List.Perm.refl _
  | cons r rs ih =>
    exact (insertByCreated_perm r (sortByCreatedDesc rs)).trans (List.Perm.cons r ih)

/-- Membership is unchanged by the `ORDER BY` model. -/
theorem mem_sortByCreatedDesc (row : HotelRow) (l : List HotelRow) :
    row ∈ sortByCreatedDesc l ↔ row ∈ l :=
  (sortByCreatedDesc_perm l).mem_iff

/-- The filtered row set of `GET /api/hotels` — the set the count query
counts and the data query paginates (`none` when the `WHERE` clause itself
is invalid). -/
def serverFilteredRows (store : List HotelRow) (currentYear : Int) (p : QueryParams) :
    Option (List HotelRow) :=
  (serverWhere currentYear p).map (fun pred => (sortByCreatedDesc store).filter pred)

/-- C2 (amended, server side): for a request with empty
search/country/city and `contractStatus` `available`/`unavailable`, the
server's filtered row set exists and contains a hotel exactly when its
`rateAvailability` has an entry with the given (or defaulted) year and the
matching `available` flag — an exact-year membership test with no
nearest-year fallback. -/
theorem C2_server_exact_year_filter (store : List HotelRow) (currentYear : Int)
    (p : QueryParams) (y : Int)
    (hsearch : p.search.getD "" = "") (hcountry : p.country.getD "" = "")
    (hcity : p.city.getD "" = "")
    (hstatus : p.contractStatus = some "available" ∨ p.contractStatus = some "unavailable")
    (hyear : (match p.year with | none => some currentYear | some s => parseIntJS s) = some y) :
    (serverFilteredRows store currentYear p).isSome = true ∧
    ∀ rows, serverFilteredRows store currentYear p = some rows →
      ∀ row, row ∈ rows ↔
        row ∈ store ∧ row.rateAvailability.any (fun r =>
          r.year == y && r.available == (p.contractStatus == some "available")) = true := by
  have hA : ∀ row : HotelRow,
      (p.search.getD "" == "" ||
        (likeContains row.name (p.search.getD "") || likeContains row.city (p.search.getD "") ||
          likeContains row.country (p.search.getD ""))) = true := by
    intro row; simp [hsearch]
  have hB : ∀ row : HotelRow,
      (p.country.getD "" == "" || row.country == p.country.getD "") = true := by
    intro row; simp [hcountry]
  have hC : ∀ row : HotelRow,
      (p.city.getD "" == "" || row.city == p.city.getD "") = true := by
    intro row; simp [hcity]
  have hne : ((some "unavailable" : Option String) == some "available") = false := by decide
  have heq : ((some "available" : Option String) == some "available") = true := by decide
  rcases hstatus with hst | hst
  · have hw : serverWhere currentYear p = some (fun row =>
        (p.search.getD "" == "" ||
          (likeContains row.name (p.search.getD "") || likeContains row.city (p.search.getD "") ||
            likeContains row.country (p.search.getD ""))) &&
        (p.country.getD "" == "" || row.country == p.country.getD "") &&
        (p.city.getD "" == "" || row.city == p.city.getD "") &&
        row.rateAvailability.any (fun r => r.year == y && r.available == true)) := by
      simp [serverWhere, hst, hyear]
    refine ⟨by simp [serverFilteredRows, hw], ?_⟩
    intro rows hrows row
    rw [serverFilteredRows, hw] at hrows
    simp only [Option.map_some'] at hrows
    obtain rfl := (Option.some.inj hrows).symm
    rw [List.mem_filter, mem_sortByCreatedDesc]
    constructor
    · rintro ⟨hmem, hpred⟩
      rw [Bool.and_eq_true] at hpred
      refine ⟨hmem, ?_⟩
      simpa [hst, heq] using hpred.2
    · rintro ⟨hmem, hany⟩
      refine ⟨hmem, ?_⟩
      rw [Bool.and_eq_true]
      refine ⟨?_, by simpa [hst, heq] using hany⟩
      rw [Bool.and_eq_true]
      refine ⟨?_, hC row⟩
      rw [Bool.and_eq_true]
      exact ⟨hA row, hB row⟩
  · have hw : serverWhere currentYear p = some (fun row =>
        (p.search.getD "" == "" ||
          (likeContains row.name (p.search.getD "") || likeContains row.city (p.search.getD "") ||
            likeContains row.country (p.search.getD ""))) &&
        (p.country.getD "" == "" || row.country == p.country.getD "") &&
        (p.city.getD "" == "" || row.city == p.city.getD "") &&
        row.rateAvailability.any (fun r => r.year == y && r.available == false)) := by
      simp [serverWhere, hst, hyear]
    refine ⟨by simp [serverFilteredRows, hw], ?_⟩
    intro rows hrows row
    rw [serverFilteredRows, hw] at hrows
    simp only [Option.map_some'] at hrows
    obtain rfl := (Option.some.inj hrows).symm
    rw [List.mem_filter, mem_sortByCreatedDesc]
    constructor
    · rintro ⟨hmem, hpred⟩
      rw [Bool.and_eq_true] at hpred
      refine ⟨hmem, ?_⟩
      simpa [hst, hne] using hpred.2
    · rintro ⟨hmem, hany⟩
      refine ⟨hmem, ?_⟩
      rw [Bool.and_eq_true]
      refine ⟨?_, by simpa [hst, hne] using hany⟩
      rw [Bool.and_eq_true]
      refine ⟨?_, hC row⟩
      rw [Bool.and_eq_true]
      exact ⟨hA row, hB row⟩

/-- A hotel available only in 2023 (no 2024 record). -/
def c2Hotel2023 : HotelRow :=
  { id := "h1", name := "Acacia", country := "Kenya", city := "Nairobi", stars := none,
    rateAvailability := [⟨2023, true, none, none⟩], createdAt := 0, updatedAt := 0 }

/-- A hotel with an exact 2024 availability record. -/
def c2Hotel2024 : HotelRow :=
  { id := "h2", name := "Baobab", country := "Kenya", city := "Mombasa", stars := some 4,
    rateAvailability := [⟨2024, true, none, none⟩], createdAt := 1, updatedAt := 1 }

/-- The request `contractStatus=available, year=2024`. -/
def c2Params : QueryParams := { year := some "2024", contractStatus := some "available" }

/-- Concrete run of `C2_server_exact_year_filter`: with
`contractStatus=available, year=2024`, the server's filtered set over
`[c2Hotel2023, c2Hotel2024]` exists, contains the hotel with the exact 2024
record and excludes the 2023-only hotel. -/
theorem C2_server_exact_year_filter_witness :
    (serverFilteredRows [c2Hotel2023, c2Hotel2024] 2025 c2Params).isSome = true ∧
    (∀ rows, serverFilteredRows [c2Hotel2023, c2Hotel2024] 2025 c2Params = some rows →
      c2Hotel2024 ∈ rows ∧ c2Hotel2023 ∉ rows) := by
  have h := C2_server_exact_year_filter [c2Hotel2023, c2Hotel2024] 2025 c2Params 2024
    rfl rfl rfl (Or.inl rfl) (by decide)
  refine ⟨h.1, ?_⟩
  intro rows hrows
  constructor
  · exact (h.2 rows hrows c2Hotel2024).mpr ⟨by decide, by decide⟩
  · intro hmem
    have := (h.2 rows hrows c2Hotel2023).mp hmem
    have h23 : c2Hotel2023.rateAvailability.any (fun r =>
        r.year == 2024 && r.available == (c2Params.contractStatus == some "available")) = false := by
      decide
    rw [h23] at this
    exact absurd this.2 (by simp)

/-- C2 counterexample (client side): `filteredHotels` in
`HotelDashboard.tsx` applies the nearest-year fallback, so with
`contractStatus=available, year=2024` a hotel available only in 2023 — with
no entry for the exact year — is nevertheless included in its filtered
results, contradicting the claimed exact-year membership test with no
nearest-year fallback. -/
theorem C2_counterexample :
    dashboardFilteredHotels [c2Hotel2023]
        { search := "", country := "", city := "", year := some 2024,
          contractStatus := "available" } 2025
      = [c2Hotel2023] ∧
    c2Hotel2023.rateAvailability.any (fun r => r.year == 2024 && r.available) = false := by
  decide

/-- C3: the hotels result cache serves a stored payload only when strictly
less than `CACHE_TTL` (5 minutes) has elapsed since it was stored; an
older entry is treated as a miss and the fresh query result is returned;
every successful create, update or delete clears the entire cache; and a
GET issued against a cleared cache — in particular the state right after
any successful write — returns the fresh query over the current store for
every filter set. -/
theorem C3_cache_ttl_and_write_invalidation (st : ServerState) (currentYear : Int)
    (p : QueryParams) (now : Nat) :
    (∀ d, (getHotelsEndpoint st currentYear p now).1 = .ok d →
       runHotelsQuery st.store currentYear p = .ok d ∨
       ∃ e, cacheGet st.cache p = some e ∧ d = e.data ∧ now - e.timestamp < CACHE_TTL) ∧
    (∀ e, cacheGet st.cache p = some e → ¬(now - e.timestamp < CACHE_TTL) →
       (getHotelsEndpoint st currentYear p now).1 = runHotelsQuery st.store currentYear p) ∧
    (∀ sess body newId h', (postHotelsEndpoint sess st body newId now).1 = .created h' →
       (postHotelsEndpoint sess st body newId now).2.cache = []) ∧
    (∀ sess id body h', (putHotelsEndpoint sess st id body now).1 = .updated h' →
       (putHotelsEndpoint sess st id body now).2.cache = []) ∧
    (∀ sess id, (deleteHotelsEndpoint sess st id).1 = .deleted →
       (deleteHotelsEndpoint sess st id).2.cache = []) ∧
    (st.cache = [] →
       (getHotelsEndpoint st currentYear p now).1 = runHotelsQuery st.store currentYear p) := by
  refine ⟨?_, ?_, ?_, ?_, ?_, ?_⟩
  · intro d hd
    cases hcg : cacheGet st.cache p with
    | some e =>
      by_cases hv : now - e.timestamp < CACHE_TTL
      · right
        refine ⟨e, rfl, ?_, hv⟩
        simp [getHotelsEndpoint, hcg, hv] at hd
        exact hd.symm
      · left
        cases hrun : runHotelsQuery st.store currentYear p with
        | error err => simp [getHotelsEndpoint, hcg, hv, hrun] at hd
        | ok r =>
          simp [getHotelsEndpoint, hcg, hv, hrun] at hd
          simp [hrun, hd]
    | none =>
      left
      cases hrun : runHotelsQuery st.store currentYear p with
      | error err => simp [getHotelsEndpoint, hcg, hrun] at hd
      | ok r =>
        simp [getHotelsEndpoint, hcg, hrun] at hd
        simp [hrun, hd]
  · intro e hcg hv
    cases hrun : runHotelsQuery st.store currentYear p <;>
      simp [getHotelsEndpoint, hcg, hv, hrun]
  · intro sess body newId h' hok
    cases hag : authGate sess <;> simp [postHotelsEndpoint, hag] at hok ⊢
    by_cases hbad : (!(strTruthy body.name) || !(strTruthy body.country) ||
        !(strTruthy body.city) || body.rateAvailability.isNone) = true
    · simp [postHotelsHandler, hbad] at hok
    · simp [postHotelsHandler, hbad]
  · intro sess id body h' hok
    cases hag : authGate sess <;> simp [putHotelsEndpoint, hag] at hok ⊢
    cases hrow : st.store.find? (fun r => r.id == id) with
    | none => simp [putHotelsHandler, hrow] at hok
    | some row => simp [putHotelsHandler, hrow]
  · intro sess id hok
    cases hag : authGate sess <;> simp [deleteHotelsEndpoint, hag] at hok ⊢
    by_cases hex : st.store.any (fun r => r.id == id) = true
    · simp [deleteHotelsHandler, hex]
    · simp [deleteHotelsHandler, hex] at hok
  · intro hcache
    have hcg : cacheGet st.cache p = none := by simp [cacheGet, hcache]
    cases hrun : runHotelsQuery st.store currentYear p <;>
      simp [getHotelsEndpoint, hcg, hrun]

/-- A cached result stored at time 0 for the default filter set. -/
def c3Entry : CacheEntry :=
  { data := { hotels := [], pagination := { page := 1, limit := 50, total := 0, totalPages := 0 } },
    timestamp := 0 }

/-- A server state whose cache holds `c3Entry` under the default filter set. -/
def c3State : ServerState := { store := [c2Hotel2023], cache := [({}, c3Entry)] }

/-- Concrete run of `C3_cache_ttl_and_write_invalidation`: at `now =
CACHE_TTL` the entry stored at time 0 is expired (not strictly within the
TTL), so the GET returns the fresh query result; and a successful admin
POST leaves an empty cache. -/
theorem C3_cache_ttl_and_write_invalidation_witness :
    (getHotelsEndpoint c3State 2025 ({} : QueryParams) CACHE_TTL).1
        = runHotelsQuery c3State.store 2025 ({} : QueryParams) ∧
    (postHotelsEndpoint (some (.valid { sub := "u1", email := "a@b", role := "admin" })) c3State
        { name := some "New", country := some "KE", city := some "Kisumu",
          stars := none, rateAvailability := some [] } "h9" 7).2.cache = [] := by
  constructor
  · exact (C3_cache_ttl_and_write_invalidation c3State 2025 {} CACHE_TTL).2.1 c3Entry
      (by decide) (by decide)
  · exact (C3_cache_ttl_and_write_invalidation c3State 2025 {} 7).2.2.1
      (some (.valid { sub := "u1", email := "a@b", role := "admin" }))
      { name := some "New", country := some "KE", city := some "Kisumu",
        stars := none, rateAvailability := some [] } "h9"
      { id := "h9", name := "New", country := "KE", city := "Kisumu", stars := none,
        rateAvailability := [], createdAt := 7, updatedAt := 7 }
      (by decide)

/-- C4 (amended): for a `GET /api/hotels` request whose `page` and `limit`
parse to numbers with `page ≥ 1` and `limit ≥ 0` and whose `WHERE` clause
is valid, the effective page size is `min(limit, 100)` and at most 100
rows are returned, `page` is 1-based, but the row-fetch offset is
`(page - 1) * limit` computed from the raw requested limit — not from the
clamped effective limit. -/
theorem C4_limit_clamp_and_offset (store : List HotelRow) (currentYear : Int)
    (p : QueryParams) (pg lm : Int)
    (hpg : effPageInt p = some pg) (hlm : effLimitInt p = some lm)
    (hw : (serverWhere currentYear p).isSome = true) (h1 : 1 ≤ pg) (h0 : 0 ≤ lm) :
    offsetOf p = some ((pg - 1) * lm) ∧
    limitNumOf p = some (min lm 100) ∧
    ∃ res, runHotelsQuery store currentYear p = .ok res ∧
      res.pagination.page = pg ∧ res.pagination.limit = min lm 100 ∧
      res.hotels.length ≤ 100 := by
  obtain ⟨pred, hpred⟩ := Option.isSome_iff_exists.mp hw
  have hoff : offsetOf p = some ((pg - 1) * lm) := by
    simp [offsetOf, hpg, hlm]
  have hlim : limitNumOf p = some (min lm 100) := by
    simp [limitNumOf, hlm]
  refine ⟨hoff, hlim, ?_⟩
  have hoffnn : ¬ (pg - 1) * lm < 0 := by
    refine not_lt.mpr (mul_nonneg ?_ h0)
    omega
  have hlimnn : ¬ min lm 100 < 0 := by
    refine not_lt.mpr (le_min h0 ?_)
    norm_num
  simp only [runHotelsQuery, hpred, hpg, hoff, hlim]
  simp only [hoffnn, hlimnn, decide_False, Bool.or_self, Bool.false_eq_true, if_false,
    decide_eq_false, Bool.or_false, Bool.false_or]
  refine ⟨_, rfl, rfl, rfl, ?_⟩
  have hle : min lm 100 ≤ 100 := min_le_right _ _
  have h100 : (min lm 100).toNat ≤ 100 := by omega
  exact Nat.le_trans (List.length_take_le _ _) h100

/-- C4 counterexample: for `page=2, limit=1000` the code computes
`offset = (2 - 1) * 1000 = 1000`, not `(page - 1) * effectiveLimit =
(2 - 1) * min(1000, 100) = 100` as the claim states — the offset is
derived from the raw requested limit, not the clamped one. -/
theorem C4_counterexample :
    offsetOf { page := some "2", limit := some "1000" } = some 1000 ∧
    limitNumOf { page := some "2", limit := some "1000" } = some 100 ∧
    (1000 : Int) ≠ (2 - 1) * 100 := by
  refine ⟨by decide, by decide, by decide⟩

/-- Concrete run of `C4_limit_clamp_and_offset` at `page=2, limit=1000`
over an empty store: the query succeeds with an effective limit of 100 and
at most 100 returned rows, while the offset is 1000. -/
theorem C4_limit_clamp_and_offset_witness :
    offsetOf { page := some "2", limit := some "1000" } = some ((2 - 1) * 1000) ∧
    limitNumOf { page := some "2", limit := some "1000" } = some (min 1000 100) ∧
    ∃ res, runHotelsQuery [] 2025 { page := some "2", limit := some "1000" } = .ok res ∧
      res.pagination.page = 2 ∧ res.pagination.limit = min 1000 100 ∧
      res.hotels.length ≤ 100 := by
  exact C4_limit_clamp_and_offset [] 2025 { page := some "2", limit := some "1000" }
    2 1000 (by decide) (by decide) (by decide) (by decide) (by decide)

/-- C6: contrary to the claim, a non-numeric `page`, `limit` or `year` does
NOT fall back to its default.  The destructuring defaults apply only to
absent parameters; a present non-numeric value makes `parseInt` return
`NaN` (`none`), which flows into the `OFFSET`/`LIMIT` parameters — or, for
`year` under a contract-status filter, into the interpolated jsonb literal
— so the database query fails and the handler answers 500 instead of using
`page=1`/`limit=50`/the current year. -/
theorem C6_malformed_params_do_not_default (store : List HotelRow) (currentYear : Int) :
    effPageInt { page := some "abc" } = none ∧
    effPageInt { page := some "abc" } ≠ some 1 ∧
    runHotelsQuery store currentYear { page := some "abc" }
      = .error "invalid input syntax for type bigint" ∧
    effLimitInt { limit := some "lots" } = none ∧
    effLimitInt { limit := some "lots" } ≠ some 50 ∧
    runHotelsQuery store currentYear { limit := some "lots" }
      = .error "invalid input syntax for type bigint" ∧
    runHotelsQuery store currentYear { year := some "oops", contractStatus := some "available" }
      = .error "invalid input syntax for type json" := by
  refine ⟨by decide, by decide, ?_, by decide, by decide, ?_, ?_⟩ <;> rfl

/-- C7: on `POST`/`PUT`/`DELETE` `/api/hotels`, a request without a valid
session — no token, or a token `jwt.verify` rejects — receives 401, a
valid session whose role is not `admin` receives 403, and a valid admin
session passes the gate and executes the route handler. -/
theorem C7_write_role_gate (st : ServerState) (body : HotelBody) (newId id : String)
    (now : Nat) :
    (postHotelsEndpoint none st body newId now = (.unauthorized, st) ∧
     putHotelsEndpoint none st id body now = (.unauthorized, st) ∧
     deleteHotelsEndpoint none st id = (.unauthorized, st)) ∧
    (postHotelsEndpoint (some .invalid) st body newId now = (.unauthorized, st) ∧
     putHotelsEndpoint (some .invalid) st id body now = (.unauthorized, st) ∧
     deleteHotelsEndpoint (some .invalid) st id = (.unauthorized, st)) ∧
    (∀ u : Session, u.role ≠ "admin" →
      postHotelsEndpoint (some (.valid u)) st body newId now = (.forbidden, st) ∧
      putHotelsEndpoint (some (.valid u)) st id body now = (.forbidden, st) ∧
      deleteHotelsEndpoint (some (.valid u)) st id = (.forbidden, st)) ∧
    (∀ u : Session, u.role = "admin" →
      postHotelsEndpoint (some (.valid u)) st body newId now
          = postHotelsHandler st body newId now ∧
      putHotelsEndpoint (some (.valid u)) st id body now = putHotelsHandler st id body now ∧
      deleteHotelsEndpoint (some (.valid u)) st id = deleteHotelsHandler st id) := by
  refine ⟨⟨rfl, rfl, rfl⟩, ⟨rfl, rfl, rfl⟩, ?_, ?_⟩
  · intro u hu
    have hrole : (u.role == "admin") = false := by
      simpa using hu
    exact ⟨by simp [postHotelsEndpoint, authGate, authRequired, requireRole, hrole],
      by simp [putHotelsEndpoint, authGate, authRequired, requireRole, hrole],
      by simp [deleteHotelsEndpoint, authGate, authRequired, requireRole, hrole]⟩
  · intro u hu
    have hrole : (u.role == "admin") = true := by
      simpa using hu
    exact ⟨by simp [postHotelsEndpoint, authGate, authRequired, requireRole, hrole],
      by simp [putHotelsEndpoint, authGate, authRequired, requireRole, hrole],
      by simp [deleteHotelsEndpoint, authGate, authRequired, requireRole, hrole]⟩

/-- Concrete run of `C7_write_role_gate`: a valid `user`-role session is
refused with 403 and a valid `admin` session reaches the delete handler. -/
theorem C7_write_role_gate_witness :
    deleteHotelsEndpoint (some (.valid { sub := "u2", email := "b@c", role := "user" }))
        c3State "h1"
        = (.forbidden, c3State) ∧
    deleteHotelsEndpoint (some (.valid { sub := "u1", email := "a@b", role := "admin" }))
        c3State "h1"
        = deleteHotelsHandler c3State "h1" := by
  constructor
  · exact ((C7_write_role_gate c3State {} "n" "h1" 0).2.2.1
      { sub := "u2", email := "b@c", role := "user" } (by decide)).2.2
  · exact ((C7_write_role_gate c3State {} "n" "h1" 0).2.2.2
      { sub := "u1", email := "a@b", role := "admin" } rfl).2.2

/-- A stored hotel with a star rating, used to exercise the PUT update. -/
def c8Row : HotelRow :=
  { id := "h1", name := "Acacia", country := "Kenya", city := "Nairobi", stars := some 5,
    rateAvailability := [⟨2024, true, none, none⟩], createdAt := 3, updatedAt := 3 }

/-- The row produced by the PUT of `C8_counterexample`. -/
def c8RowAfterPut : HotelRow :=
  { id := "h1", name := "Baobab", country := "Kenya", city := "Nairobi", stars := none,
    rateAvailability := [⟨2024, true, none, none⟩], createdAt := 3, updatedAt := 9 }

/-- C8 counterexample: a successful admin `PUT /api/hotels/h1` whose body
sets only `name` (omitting `stars`) does not keep the stored `stars = 5`:
the SQL `stars = $5` is not coalesced, so the rating is overwritten with
`null`. -/
theorem C8_counterexample :
    (putHotelsEndpoint (some (.valid { sub := "u1", email := "a@b", role := "admin" }))
        { store := [c8Row], cache := [] } "h1" { name := some "Baobab" } 9).1
      = .updated c8RowAfterPut ∧
    c8Row.stars = some 5 ∧
    c8RowAfterPut.stars ≠ some 5 := by
  refine ⟨by decide, by decide, by decide⟩

/-- C8 (amended): on a successful admin `PUT /api/hotels/:id` of an
existing hotel, `name`, `country`, `city` and `rateAvailability` each
independently keep their stored value when omitted from the body, `id` and
`createdAt` are unchanged and `updatedAt` is refreshed — but `stars` is
always overwritten with the request's `stars ?? null`, so an omitted
`stars` clears the stored rating. -/
theorem C8_put_partial_update (st : ServerState) (s : Session) (id : String)
    (body : HotelBody) (now : Nat) (row : HotelRow)
    (hs : s.role = "admin")
    (hrow : st.store.find? (fun r => r.id == id) = some row) :
    putHotelsEndpoint (some (.valid s)) st id body now
      = (.updated (applyHotelUpdate row body now),
         { store := st.store.map (fun r => if r.id == id then applyHotelUpdate r body now else r),
           cache := [] }) ∧
    (body.name = none → (applyHotelUpdate row body now).name = row.name) ∧
    (body.country = none → (applyHotelUpdate row body now).country = row.country) ∧
    (body.city = none → (applyHotelUpdate row body now).city = row.city) ∧
    (body.rateAvailability = none →
      (applyHotelUpdate row body now).rateAvailability = row.rateAvailability) ∧
    (applyHotelUpdate row body now).stars = body.stars ∧
    (applyHotelUpdate row body now).id = row.id ∧
    (applyHotelUpdate row body now).createdAt = row.createdAt ∧
    (applyHotelUpdate row body now).updatedAt = now := by
  have hrole : (s.role == "admin") = true := by simpa using hs
  refine ⟨?_, ?_, ?_, ?_, ?_, rfl, rfl, rfl, rfl⟩
  · simp [putHotelsEndpoint, authGate, authRequired, requireRole, hrole, putHotelsHandler,
      hrow]
  · intro h; simp [applyHotelUpdate, h]
  · intro h; simp [applyHotelUpdate, h]
  · intro h; simp [applyHotelUpdate, h]
  · intro h; simp [applyHotelUpdate, h]

/-- Concrete run of `C8_put_partial_update`: updating only the name keeps
country, city and availability, refreshes `updatedAt`, and sets `stars` to
the body's (absent) value. -/
theorem C8_put_partial_update_witness :
    (applyHotelUpdate c8Row { name := some "Baobab" } 9).country = c8Row.country ∧
    (applyHotelUpdate c8Row { name := some "Baobab" } 9).createdAt = c8Row.createdAt ∧
    (applyHotelUpdate c8Row { name := some "Baobab" } 9).updatedAt = 9 ∧
    (applyHotelUpdate c8Row { name := some "Baobab" } 9).stars = none := by
  obtain ⟨-, -, hcountry, -, -, hstars, -, hcreated, hupdated⟩ :=
    C8_put_partial_update { store := [c8Row], cache := [] }
      { sub := "u1", email := "a@b", role := "admin" } "h1" { name := some "Baobab" } 9 c8Row
      rfl (by decide)
  exact ⟨hcountry rfl, hcreated, hupdated, hstars⟩

/-- C9: in the filter panel, every field edit mutates only the draft state
— the committed filter set is untouched and no fetch-triggering commit is
fired — and pressing Enter in the search field performs exactly the same
transition as the Apply action: committed becomes the current draft. -/
theorem C9_draft_edits_and_enter (currentYear : Int) (s : FilterPanelState) :
    (∀ e, (filterStep currentYear s (.edit e)).1.draft = applyDraftChange s.draft e ∧
       (filterStep currentYear s (.edit e)).1.committed = s.committed ∧
       (filterStep currentYear s (.edit e)).2 = false) ∧
    filterStep currentYear s .enterInSearch = filterStep currentYear s .applyFilters ∧
    (filterStep currentYear s .applyFilters).1.committed = s.draft ∧
    (filterStep currentYear s .applyFilters).1.draft = s.draft := by
  exact ⟨fun e => ⟨rfl, rfl, rfl⟩, rfl, rfl, rfl⟩

/-- C10: a successful `POST /api/auth/register` stores the request email
lowercased and stores role `admin` exactly when the body's `role` field is
the string `"admin"` (and `user` otherwise) — the route has no auth
middleware, so any unauthenticated caller choosing `role="admin"` obtains
an admin account — and the login lookup, which also lowercases the
submitted email, matches the registration case-insensitively. -/
theorem C10_register_admin_and_lowercase (users : List UserRow) (body : RegisterBody)
    (newId hash : String) (u : UserRow)
    (hreg : registerEndpoint users body newId hash = .createdUser u) :
    u.email = jsToLower (body.email.getD "") ∧
    (u.role = "admin" ↔ body.role = some "admin") ∧
    (u.role = "admin" ∨ u.role = "user") ∧
    ∀ loginEmail, loginLookup [u] loginEmail = some u ↔ jsToLower loginEmail = u.email := by
  by_cases hv : (!(strTruthy body.email) || !(strTruthy body.password)) = true
  · simp [registerEndpoint, hv] at hreg
  · by_cases hc : users.any (fun x => x.email == jsToLower (body.email.getD "")) = true
    · simp [registerEndpoint, hv, hc] at hreg
    · simp only [registerEndpoint, hv, hc, Bool.false_eq_true, if_false,
        RegisterOutcome.createdUser.injEq] at hreg
      subst hreg
      refine ⟨rfl, ?_, ?_, ?_⟩
      · by_cases hr : body.role = some "admin" <;> simp [hr]
      · by_cases hr : body.role = some "admin" <;> simp [hr]
      · intro loginEmail
        constructor
        · intro hfind
          unfold loginLookup at hfind
          have hp := List.find?_some hfind
          have hp' := (by simpa using hp : _ = jsToLower loginEmail)
          exact hp'.symm
        · intro heq
          unfold loginLookup
          rw [List.find?_cons_of_pos _ (by simp [heq])]

/-- The user row stored by the register run of the C10 witness. -/
def c10AdminUser : UserRow :=
  { id := "id1", email := "admin@example.com", passwordHash := "h", role := "admin" }

/-- Concrete run of `C10_register_admin_and_lowercase`: registering
`Admin@Example.com` with `role="admin"` and no session stores
`admin@example.com` with role `admin`, and the login lookup finds it from
a differently-cased email. -/
theorem C10_register_admin_and_lowercase_witness :
    c10AdminUser.email = jsToLower "Admin@Example.com" ∧
    loginLookup [c10AdminUser] "ADMIN@example.COM" = some c10AdminUser := by
  obtain ⟨hemail, -, -, hlook⟩ := C10_register_admin_and_lowercase []
    { email := some "Admin@Example.com", password := some "pw", role := some "admin" }
    "id1" "h" c10AdminUser (by decide)
  exact ⟨hemail, (hlook "ADMIN@example.COM").mpr (by decide)⟩
